import Mathlib

/-!
Shallow embedding of the spreadsheet kernel sources
(`src/kernel/kernel.rs`, `src/kernel/arithmetic.rs`).

The Rust code is generic over a magnitude type `T: Arithmetic`
(instantiated at `f32`/`f64`); the claims under study concern only the
field operations `+` and `/` (by the literal `from_f64(100.0)`), so the
magnitude is modelled by the exact rationals `ℚ`.  Machine integers
(`u64`, `u8`) are modelled by `Nat`; no claim exercises a value anywhere
near `2^64`, where Rust const evaluation would abort on overflow.
Byte strings handled byte-wise in Rust (`column.as_bytes()`) are
modelled as `List Nat` of byte values.
-/

/-- `NumericAttribute` from kernel.rs: an extra parsed attribute on a
number (`Percent` or `Currency(symbol)`). -/
inductive NumericAttribute where
  | Percent
  | Currency (symbol : String)
deriving DecidableEq, Repr

/-- `Numeric` from kernel.rs: a number with an optional attribute. -/
structure Numeric where
  number : ℚ
  attr : Option NumericAttribute
deriving DecidableEq, Repr

/-- `Numeric::value` from kernel.rs: `None => number`,
`Some(Percent) => number / from_f64(100.0)`, `Some(_) => number`. -/
def Numeric.value (self : Numeric) : ℚ :=
  match self.attr with
  | none => self.number
  | some attr =>
    match attr with
    | NumericAttribute.Percent => self.number / 100
    | _ => self.number

/-- `Numeric::try_add` from kernel.rs: if `self.attr` is `None` the result
takes `other.attr`; if `other.attr` is `None` the result takes `self.attr`;
if both are present they must be equal, otherwise `None`.  In every success
case the stored number is `self.value() + other.value()`. -/
def Numeric.try_add (self other : Numeric) : Option Numeric :=
  match self.attr with
  | none => some ⟨self.value + other.value, other.attr⟩
  | some attr =>
    match other.attr with
    | none => some ⟨self.value + other.value, self.attr⟩
    | some other_attr =>
      if attr = other_attr then
        some ⟨self.value + other.value, self.attr⟩
      else
        none

/-- C4: for every `Numeric`, `value()` is the magnitude divided by 100 when
the attribute is `Percent`, and the magnitude unchanged otherwise (no
attribute, or `Currency`); `value` is a total function with no error case. -/
theorem c4_value_attribute (n : Numeric) :
    n.value = if n.attr = some NumericAttribute.Percent then n.number / 100
              else n.number := by
  rcases n with ⟨m, a⟩
  rcases a with _ | a
  · simp [Numeric.value]
  · rcases a with _ | s <;> simp [Numeric.value]

/-- C5: `try_add` succeeds exactly when at least one side lacks an attribute
or both attributes are equal, the result adopting the present (or shared)
attribute; it returns `none` (it is total, so it never panics) when both
sides carry different attributes. -/
theorem c5_try_add_attribute_rule (a b : Numeric) :
    ((a.try_add b).isSome ↔ a.attr = none ∨ b.attr = none ∨ a.attr = b.attr) ∧
    (∀ c, a.try_add b = some c →
      c.attr = if a.attr = none then b.attr else a.attr) := by
  rcases a with ⟨m, _ | x⟩ <;> rcases b with ⟨n, _ | y⟩
  · simp [Numeric.try_add]
  · simp [Numeric.try_add]
  · simp [Numeric.try_add]
  · constructor
    · by_cases h : x = y <;> simp [Numeric.try_add, h]
    · intro c hc
      by_cases h : x = y
      · subst h
        simp [Numeric.try_add] at hc
        simp [← hc]
      · simp [Numeric.try_add, h] at hc

/-- Witness for C5 at a concrete input: adding `Percent(100)` to
`Percent(200)` yields `⟨3, Percent⟩`, whose attribute is the shared one. -/
theorem c5_try_add_attribute_rule_witness :
    Numeric.attr ⟨3, some NumericAttribute.Percent⟩ =
      if Numeric.attr ⟨100, some NumericAttribute.Percent⟩ = none
      then Numeric.attr ⟨200, some NumericAttribute.Percent⟩
      else Numeric.attr ⟨100, some NumericAttribute.Percent⟩ :=
  (c5_try_add_attribute_rule ⟨100, some NumericAttribute.Percent⟩
      ⟨200, some NumericAttribute.Percent⟩).2
    ⟨3, some NumericAttribute.Percent⟩
    (by simp [Numeric.try_add, Numeric.value]; norm_num)

/-- C9: whenever `try_add` succeeds, the stored magnitude of the result is
`self.value() + other.value()` (not the sum of raw magnitudes); hence for
two `Percent` operands the result's `value()` is
`(self.value() + other.value()) / 100`. -/
theorem c9_try_add_double_adjust (a b c : Numeric) (h : a.try_add b = some c) :
    c.number = a.value + b.value ∧
    (a.attr = some NumericAttribute.Percent →
      b.attr = some NumericAttribute.Percent →
      c.value = (a.value + b.value) / 100) := by
  rcases a with ⟨m, _ | x⟩ <;> rcases b with ⟨n, _ | y⟩
  · simp [Numeric.try_add] at h
    simp [← h, Numeric.value]
  · simp [Numeric.try_add] at h
    simp [← h, Numeric.value]
  · simp [Numeric.try_add] at h
    constructor
    · simp [← h]
    · intro hx _
      simp at hx
      subst hx
      simp [← h, Numeric.value]
  · by_cases hxy : x = y
    · simp [Numeric.try_add, hxy] at h
      constructor
      · simp [← h, hxy]
      · intro hx _
        simp at hx
        subst hx
        subst hxy
        simp [← h, Numeric.value]
    · simp [Numeric.try_add, hxy] at h

/-- Witness for C9 at a concrete input: `Percent(100) + Percent(200)`
succeeds with stored magnitude `3 = 1 + 2` and `value()` equal to
`(1 + 2) / 100`. -/
theorem c9_try_add_double_adjust_witness :
    Numeric.number ⟨3, some NumericAttribute.Percent⟩ =
      Numeric.value ⟨100, some NumericAttribute.Percent⟩ +
        Numeric.value ⟨200, some NumericAttribute.Percent⟩ ∧
    Numeric.value ⟨3, some NumericAttribute.Percent⟩ =
      (Numeric.value ⟨100, some NumericAttribute.Percent⟩ +
        Numeric.value ⟨200, some NumericAttribute.Percent⟩) / 100 :=
  have h := c9_try_add_double_adjust
    ⟨100, some NumericAttribute.Percent⟩ ⟨200, some NumericAttribute.Percent⟩
    ⟨3, some NumericAttribute.Percent⟩
    (by simp [Numeric.try_add, Numeric.value]; norm_num)
  ⟨h.1, h.2 rfl rfl⟩

/-- `ColumnParseError` from kernel.rs, with `UnexpectedChar` carrying the
offending byte value. -/
inductive ColumnParseError where
  | UnexpectedChar (c : Nat)
  | DidntStartAlpha
  | DidntContainNumber
deriving DecidableEq, Repr

/-- `ipow` from kernel.rs: `0 => 1`, `1 => x`, `_ => x * ipow(x, pow-1)`.
`u64` arithmetic modelled on `Nat` (exact below `2^64`; in Rust const
evaluation an overflow would abort, which no claim exercises). -/
def ipow (x : Nat) : Nat → Nat
  | 0 => 1
  | 1 => x
  | pow + 2 => x * ipow x (pow + 1)

/-- `column_to_u64` from kernel.rs, byte-wise on the input.  Note the Rust
match uses the exclusive range patterns `'A'..'Z'` and `'a'..'z'`, which
match bytes `65 ≤ c < 90` and `97 ≤ c < 122` — excluding `'Z'` (90) and
`'z'` (122).  A letter contributes `(c - 'A') * 26^(remaining length)`. -/
def column_to_u64 : List Nat → Except ColumnParseError Nat
  | [] => Except.ok 0
  | c :: s2 =>
    if 65 ≤ c ∧ c < 90 then
      match column_to_u64 s2 with
      | Except.ok v => Except.ok (v + (c - 65) * ipow 26 s2.length)
      | Except.error e => Except.error e
    else if 97 ≤ c ∧ c < 122 then
      match column_to_u64 s2 with
      | Except.ok v => Except.ok (v + (c - 97) * ipow 26 s2.length)
      | Except.error e => Except.error e
    else
      Except.error (ColumnParseError.UnexpectedChar c)

/-- `split_id` from kernel.rs: a stub that returns
`Err(ColumnParseError::DidntStartAlpha)` for every input. -/
def split_id (s : List Nat) : Except ColumnParseError (List Nat × List Nat) :=
  Except.error ColumnParseError.DidntStartAlpha

/-- Fuel-instrumented `ipow`: one unit of fuel per call; `none` means the
recursion depth exceeded the fuel. -/
def ipow_fuel (fuel x pow : Nat) : Option Nat :=
  match fuel with
  | 0 => none
  | f + 1 =>
    match pow with
    | 0 => some 1
    | 1 => some x
    | p + 2 => (ipow_fuel f x (p + 1)).map (fun v => x * v)

/-- Fuel-instrumented `column_to_u64`: one unit of fuel per call. -/
def column_to_u64_fuel (fuel : Nat) (bytes : List Nat) :
    Option (Except ColumnParseError Nat) :=
  match fuel with
  | 0 => none
  | f + 1 =>
    match bytes with
    | [] => some (Except.ok 0)
    | c :: s2 =>
      if 65 ≤ c ∧ c < 90 then
        (column_to_u64_fuel f s2).map (fun r =>
          match r with
          | Except.ok v => Except.ok (v + (c - 65) * ipow 26 s2.length)
          | Except.error e => Except.error e)
      else if 97 ≤ c ∧ c < 122 then
        (column_to_u64_fuel f s2).map (fun r =>
          match r with
          | Except.ok v => Except.ok (v + (c - 97) * ipow 26 s2.length)
          | Except.error e => Except.error e)
      else
        some (Except.error (ColumnParseError.UnexpectedChar c))

lemma ipow_fuel_eq : ∀ fuel x pow, pow < fuel →
    ipow_fuel fuel x pow = some (ipow x pow) := by
  intro fuel
  induction fuel with
  | zero => intro x pow h; omega
  | succ f ih =>
    intro x pow h
    match pow with
    | 0 => simp [ipow_fuel, ipow]
    | 1 => simp [ipow_fuel, ipow]
    | p + 2 =>
      have hp : p + 1 < f := by omega
      simp [ipow_fuel, ipow, ih x (p + 1) hp]

lemma column_to_u64_fuel_eq : ∀ fuel bytes, bytes.length < fuel →
    column_to_u64_fuel fuel bytes = some (column_to_u64 bytes) := by
  intro fuel
  induction fuel with
  | zero => intro bytes h; omega
  | succ f ih =>
    intro bytes h
    match bytes with
    | [] => simp [column_to_u64_fuel, column_to_u64]
    | c :: s2 =>
      have hs : s2.length < f := by simp at h; omega
      by_cases h1 : 65 ≤ c ∧ c < 90
      · cases hcs : column_to_u64 s2 <;>
          simp [column_to_u64_fuel, column_to_u64, h1, ih s2 hs, hcs]
      · by_cases h2 : 97 ≤ c ∧ c < 122
        · cases hcs : column_to_u64 s2 <;>
            simp [column_to_u64_fuel, column_to_u64, h1, h2, ih s2 hs, hcs]
        · simp [column_to_u64_fuel, column_to_u64, h1, h2]

/-- C8: column-label decoding terminates on every input; the recursion in
`column_to_u64` is bounded by the length of the input, and the recursion in
its helper `ipow` by the exponent (which the decoder always takes below the
input length): with fuel exceeding those bounds, the fuel-instrumented
versions never exhaust their fuel and agree with the total functions. -/
theorem c8_decoding_terminates :
    (∀ fuel x pow, pow < fuel → ipow_fuel fuel x pow = some (ipow x pow)) ∧
    (∀ fuel bytes, bytes.length < fuel →
      column_to_u64_fuel fuel bytes = some (column_to_u64 bytes)) :=
  ⟨ipow_fuel_eq, column_to_u64_fuel_eq⟩

/-- Witness for C8 at concrete inputs: fuel 3 suffices for exponent 2 and
for the two-byte label "AB". -/
theorem c8_decoding_terminates_witness :
    ipow_fuel 3 26 2 = some (ipow 26 2) ∧
    column_to_u64_fuel 3 [65, 66] = some (column_to_u64 [65, 66]) :=
  ⟨c8_decoding_terminates.1 3 26 2 (by decide),
   c8_decoding_terminates.2 3 [65, 66] (by decide)⟩

/-- Modelled from the spec: no address encoder exists in the source (the
codec there consists only of `split_id` and `column_to_u64`), so encoding
follows §4.2: the column index maps, zero-based, to the base-26 alphabetic
label A, B, …, Z, AA, AB, … (as uppercase ASCII bytes). -/
def encode_col (n : Nat) : List Nat :=
  if n < 26 then [65 + n]
  else encode_col (n / 26 - 1) ++ [65 + n % 26]
decreasing_by omega

/-- Modelled from the spec: the row number maps to its decimal label. -/
def encode_row (r : Nat) : List Nat :=
  (Nat.toDigits 10 r).map Char.toNat

/-- Modelled from the spec: the combined label is the concatenation of the
column label and the row label (e.g. "BC23"). -/
def encode_address (row col : Nat) : List Nat :=
  encode_col col ++ encode_row row

/-- Modelled from the spec: the decimal row parse, absent from the source. -/
def parse_row (digits : List Nat) : Nat :=
  digits.foldl (fun acc d => acc * 10 + (d - 48)) 0

/-- Address decoding as the source provides it: `split_id` (the only
label-splitting function in kernel.rs) separates the alphabetic and numeric
runs, then `column_to_u64` decodes the column part and (modelled from the
spec, absent from the source) `parse_row` the row part.  Since `split_id`
is a stub rejecting every input, the `ok` branch is unreachable. -/
def decode_address (s : List Nat) : Except ColumnParseError (Nat × Nat) :=
  match split_id s with
  | Except.error e => Except.error e
  | Except.ok (colPart, rowPart) =>
    match column_to_u64 colPart with
    | Except.error e => Except.error e
    | Except.ok col => Except.ok (parse_row rowPart, col)

/-- C1 (refuting evaluation): the round-trip `decode(encode(row, col))`
fails already at `(row, col) = (1, 0)`: the encoded label is "A1"
(bytes `[65, 49]`), and decoding it returns
`Err(DidntStartAlpha)` — `split_id` rejects every input — instead of
`(1, 0)`.  (The general fact: `decode_address` returns that error on
every input whatsoever.) -/
theorem c1_roundtrip_fails :
    encode_address 1 0 = [65, 49] ∧
    decode_address (encode_address 1 0) =
      Except.error ColumnParseError.DidntStartAlpha ∧
    (∀ s, decode_address s = Except.error ColumnParseError.DidntStartAlpha) := by
  refine ⟨?_, rfl, fun s => rfl⟩
  rw [encode_address, encode_col]
  simp [encode_row, Nat.toDigits, Nat.toDigitsCore]
  decide

/-- C2 (refuting evaluation): `column_to_u64` rejects the uppercase label
"Z" (byte 90) and the lowercase label "z" (byte 122) with
`UnexpectedChar` — the exclusive range patterns exclude them — while "Y"
(byte 89) decodes to 24; and the distinct labels "A" and "AA" both decode
to 0, so decoding is neither total on letter strings nor injective. -/
theorem c2_base26_convention_fails :
    column_to_u64 [90] = Except.error (ColumnParseError.UnexpectedChar 90) ∧
    column_to_u64 [122] = Except.error (ColumnParseError.UnexpectedChar 122) ∧
    column_to_u64 [89] = Except.ok 24 ∧
    column_to_u64 [65] = Except.ok 0 ∧
    column_to_u64 [65, 65] = Except.ok 0 :=
  ⟨rfl, rfl, rfl, rfl, rfl⟩

/-- C3 (refuting evaluation): the decoder does not report the advertised
distinct error kinds: `column_to_u64` accepts the empty input with
`Ok(0)`, and `split_id` returns the single kind `DidntStartAlpha` for a
well-formed label "A1", for a digit-led label "1A", and for empty input
alike (`DidntContainNumber` is never produced). -/
theorem c3_error_kinds_fail :
    column_to_u64 [] = Except.ok 0 ∧
    split_id [65, 49] = Except.error ColumnParseError.DidntStartAlpha ∧
    split_id [49, 65] = Except.error ColumnParseError.DidntStartAlpha ∧
    split_id [] = Except.error ColumnParseError.DidntStartAlpha :=
  ⟨rfl, rfl, rfl, rfl⟩

/-- `CellId` from kernel.rs (`row`, `col` are `u32`, modelled on `Nat`). -/
structure CellId where
  row : Nat
  col : Nat
deriving DecidableEq, Repr

/-- `CellId::new` from kernel.rs. -/
def CellId.new (row col : Nat) : CellId := ⟨row, col⟩

/-- `FunctionKind` from kernel.rs. -/
inductive FunctionKind where
  | Sum
  | Prod
  | If
  | Sqrt
  | Sdev
  | Offset

/-- `Primitive` from kernel.rs.  `chrono::NaiveDate` and
`chrono::TimeDelta` are modelled opaquely by integers (a day count and a
duration); no claim inspects them. -/
inductive Primitive where
  | Number (n : Numeric)
  | Bool (b : Bool)
  | Date (days : Int)
  | Time (delta : Int)
  | IPAddress (a b c d : Nat)

/-- `FormulaParseError` from kernel.rs: its only variant is
`UnknownFunction(String)`. -/
inductive FormulaParseError where
  | UnknownFunction (name : String)
deriving DecidableEq, Repr

mutual
/-- `Formula` from kernel.rs (boxed children become plain fields). -/
inductive Formula where
  | CellRef (id : CellId)
  | CellRange (a b : CellId)
  | Function (kind : FunctionKind) (arguments : List Value)
  | Add (a b : Value)
  | Mul (a b : Value)
  | Sub (a b : Value)
  | Div (a b : Value)
  | Cmp (a b : Value)
  | Lt (a b : Value)
  | Gr (a b : Value)

/-- `Value` from kernel.rs. -/
inductive Value where
  | Raw
  | Primitive (p : Primitive)
  | Formula (f : Formula)
  | FormulaParseError (e : FormulaParseError)
end

/-- Outcome of Rust code that may reach `unimplemented!()`: a normal
return, or a panic that aborts without producing a value. -/
inductive PanicOr (α : Type) where
  | panics
  | ret (a : α)

/-- `impl TryFrom<&str> for Primitive` from kernel.rs: the body is
`unimplemented!()`, so every call panics. -/
def Primitive.try_from (value : String) : PanicOr (Except Unit Primitive) :=
  PanicOr.panics

/-- `impl TryFrom<&str> for Formula` from kernel.rs: the body is
`unimplemented!()`, so every call panics. -/
def Formula.try_from (value : String) : PanicOr (Except FormulaParseError Formula) :=
  PanicOr.panics

/-- `impl From<&str> for Value` from kernel.rs: trim; if the text does not
start with `'='`, a successful `Primitive::try_from` gives `Primitive` and
a failed one gives `Raw`; otherwise the remainder after the `'='` goes to
`Formula::try_from`, whose error becomes the `FormulaParseError` variant.
A panic in either conversion propagates. -/
def Value.from_str (s : String) : PanicOr Value :=
  let value := s.trim
  if !(value.startsWith "=") then
    match Primitive.try_from value with
    | PanicOr.panics => PanicOr.panics
    | PanicOr.ret (Except.ok primitive) => PanicOr.ret (Value.Primitive primitive)
    | PanicOr.ret (Except.error _) => PanicOr.ret Value.Raw
  else
    match Formula.try_from (value.drop 1) with
    | PanicOr.panics => PanicOr.panics
    | PanicOr.ret (Except.ok formula) => PanicOr.ret (Value.Formula formula)
    | PanicOr.ret (Except.error e) => PanicOr.ret (Value.FormulaParseError e)

/-- `Cell` from kernel.rs. -/
structure Cell where
  raw : String
  value : Value

/-- `impl From<String> for Cell` from kernel.rs:
`Self{raw: s, value: s.as_str().into()}` (panic propagates). -/
def Cell.from_string (s : String) : PanicOr Cell :=
  match Value.from_str s with
  | PanicOr.panics => PanicOr.panics
  | PanicOr.ret value => PanicOr.ret ⟨s, value⟩

lemma from_str_panics (s : String) : Value.from_str s = PanicOr.panics := by
  unfold Value.from_str
  by_cases h : s.trim.startsWith "=" <;>
    simp [h, Primitive.try_from, Formula.try_from]

/-- C10: for every input string, converting cell text into a `Value` (and
hence `Cell::from(String)`) reaches an `unimplemented!()` stub and panics:
the non-`'='` branch calls `Primitive::try_from` and the `'='` branch calls
`Formula::try_from`, both of which panic unconditionally, so no call
returns a `Value`. -/
theorem c10_conversion_always_panics (s : String) :
    Value.from_str s = PanicOr.panics ∧ Cell.from_string s = PanicOr.panics :=
  ⟨from_str_panics s, by unfold Cell.from_string; rw [from_str_panics]⟩

/-- C6 (refuting evaluation): parsing the literal text "hello" (and the
numeric literal "5"), neither starting with `'='`, does not produce `Raw`
or a `Primitive`: it panics in the `unimplemented!()` body of
`Primitive::try_from`, and the formula text "=A1" likewise panics in
`Formula::try_from`. -/
theorem c6_literal_parse_panics :
    Value.from_str "hello" = PanicOr.panics ∧
    Value.from_str "5" = PanicOr.panics ∧
    Value.from_str "=A1" = PanicOr.panics :=
  ⟨from_str_panics "hello", from_str_panics "5", from_str_panics "=A1"⟩

/-- C7 (refuting evaluation): `FormulaParseError` has exactly one kind —
every value of the type is an `UnknownFunction` — so no generic
parse-error kind distinct from it exists; moreover formula parsing never
reports it, since `Formula::try_from` panics on every input, e.g. on the
malformed expression "((". -/
theorem c7_single_parse_error_kind :
    (∀ e : FormulaParseError,
      ∃ name, e = FormulaParseError.UnknownFunction name) ∧
    Formula.try_from "((" = PanicOr.panics := by
  refine ⟨fun e => ?_, rfl⟩
  cases e with
  | UnknownFunction n => exact ⟨n, rfl⟩
